import Mathlib

/-!
Verification of the fcl narrow-phase distance dispatcher and the half-space
bound-fitting specializations (`include/fcl/distance.h`,
`include/fcl/shape/halfspace.h`).

Scalars (`FCL_REAL`, the `ScalarT` template parameter) are modelled as exact
real numbers; `std::numeric_limits<FCL_REAL>::max()` is the concrete constant
`FCL_MAX` below.  Eigen's `Vector3`, `Matrix3` and `Transform3` are modelled
by explicit component structures.  Stateful code (the distance driver's
diagnostics, routine invocation and solver new/delete) is modelled by a pure
function returning the result together with a list of observable events.
-/

namespace fcl

noncomputable section

/-- Model of `std::numeric_limits<FCL_REAL>::max()` for `FCL_REAL = double`:
the largest finite IEEE-754 binary64 value, `(2^53 - 1) * 2^971`. -/
def FCL_MAX : ℝ := (2 ^ 53 - 1) * 2 ^ 971

/-- Modelled from the spec: Eigen's `Vector3<S>` (the shape/transform
container types are outside this core), a 3-vector of scalars. -/
@[ext]
structure Vector3 where
  x : ℝ
  y : ℝ
  z : ℝ

/-- Dot product of two 3-vectors (`Eigen dot`). -/
def Vector3.dot (a b : Vector3) : ℝ := a.x * b.x + a.y * b.y + a.z * b.z

/-- Euclidean norm of a 3-vector (`Eigen norm`). -/
def Vector3.norm (a : Vector3) : ℝ := Real.sqrt (a.dot a)

/-- Componentwise sum. -/
def Vector3.add (a b : Vector3) : Vector3 := ⟨a.x + b.x, a.y + b.y, a.z + b.z⟩

/-- Componentwise difference. -/
def Vector3.sub (a b : Vector3) : Vector3 := ⟨a.x - b.x, a.y - b.y, a.z - b.z⟩

/-- Scalar multiple. -/
def Vector3.smul (c : ℝ) (a : Vector3) : Vector3 := ⟨c * a.x, c * a.y, c * a.z⟩

/-- Modelled from the spec: a 3x3 matrix, stored by rows. -/
@[ext]
structure Matrix3 where
  r0 : Vector3
  r1 : Vector3
  r2 : Vector3

/-- Matrix-vector product (row i of the result is `r_i . v`). -/
def Matrix3.mulVec (m : Matrix3) (v : Vector3) : Vector3 :=
  ⟨m.r0.dot v, m.r1.dot v, m.r2.dot v⟩

/-- The identity matrix. -/
def Matrix3.id : Matrix3 := ⟨⟨1, 0, 0⟩, ⟨0, 1, 0⟩, ⟨0, 0, 1⟩⟩

/-- Matrix product: row i of `a.mul b` holds the dot products of row i of `a`
with the columns of `b`, so that `(a.mul b).mulVec v = a.mulVec (b.mulVec v)`. -/
def Matrix3.mul (a b : Matrix3) : Matrix3 :=
  ⟨⟨a.r0.dot ⟨b.r0.x, b.r1.x, b.r2.x⟩, a.r0.dot ⟨b.r0.y, b.r1.y, b.r2.y⟩,
      a.r0.dot ⟨b.r0.z, b.r1.z, b.r2.z⟩⟩,
    ⟨a.r1.dot ⟨b.r0.x, b.r1.x, b.r2.x⟩, a.r1.dot ⟨b.r0.y, b.r1.y, b.r2.y⟩,
      a.r1.dot ⟨b.r0.z, b.r1.z, b.r2.z⟩⟩,
    ⟨a.r2.dot ⟨b.r0.x, b.r1.x, b.r2.x⟩, a.r2.dot ⟨b.r0.y, b.r1.y, b.r2.y⟩,
      a.r2.dot ⟨b.r0.z, b.r1.z, b.r2.z⟩⟩⟩

/-- Modelled from the spec: a rigid transform `x --> R x + T`, an opaque
rotation-plus-translation type consumed by this core (spec section 3). -/
@[ext]
structure Transform3 where
  linear : Matrix3
  translation : Vector3

/-- The identity transform (`Transform3d::Identity()`). -/
def idTransform : Transform3 := ⟨Matrix3.id, ⟨0, 0, 0⟩⟩

/-- Composition of transforms: `(t2.compose t1) x = t2 (t1 x)`
(Eigen's `tf2 * tf1`). -/
def Transform3.compose (t2 t1 : Transform3) : Transform3 :=
  ⟨t2.linear.mul t1.linear, (t2.linear.mulVec t1.translation).add t2.translation⟩

/-- Modelled from the spec: rigidity of a transform (orthonormal rotation,
spec section 3); stated as preservation of all dot products by the linear part. -/
def IsRigid (tf : Transform3) : Prop :=
  ∀ v w : Vector3, (tf.linear.mulVec v).dot (tf.linear.mulVec w) = v.dot w

/-- The half-space `{x | n . x <= d}` (`fcl::Halfspace<ScalarT>`): plane
normal `n` and offset `d`. -/
@[ext]
structure Halfspace where
  n : Vector3
  d : ℝ

/-- `Halfspace::unitNormalTest()`: turn a non-unit normal into a unit one,
rescaling the offset; a zero-length normal is replaced by `(1,0,0)` with
offset `0`.  The C++ method mutates `n` and `d` in place at the end of each
constructor; here it is the pure function from the pre-constructor fields to
the constructed half-space. -/
def Halfspace.unitNormalTest (n : Vector3) (d : ℝ) : Halfspace :=
  if 0 < n.norm then
    ⟨⟨n.x * (1 / n.norm), n.y * (1 / n.norm), n.z * (1 / n.norm)⟩, d * (1 / n.norm)⟩
  else
    ⟨⟨1, 0, 0⟩, 0⟩

/-- Constructor `Halfspace(const Vector3&, ScalarT)`. -/
def Halfspace.ofVec (n : Vector3) (d : ℝ) : Halfspace := Halfspace.unitNormalTest n d

/-- Constructor `Halfspace(ScalarT a, ScalarT b, ScalarT c, ScalarT d)`. -/
def Halfspace.ofCoeffs (a b c d : ℝ) : Halfspace := Halfspace.unitNormalTest ⟨a, b, c⟩ d

/-- Default constructor `Halfspace()`: `n = (1,0,0)`, `d = 0`. -/
def Halfspace.defaultCtor : Halfspace := ⟨⟨1, 0, 0⟩, 0⟩

/-- `Halfspace::signedDistance(p) = n . p - d`. -/
def Halfspace.signedDistance (s : Halfspace) (p : Vector3) : ℝ := s.n.dot p - s.d

/-- `Halfspace::distance(p) = |n . p - d|`. -/
def Halfspace.distance (s : Halfspace) (p : Vector3) : ℝ := |s.n.dot p - s.d|

/-- `fcl::transform(Halfspace, Transform3)`: `n' = R n`, `d' = d + n' . T`,
then the `Halfspace(n', d')` constructor (which renormalizes). -/
def transform (a : Halfspace) (tf : Transform3) : Halfspace :=
  Halfspace.ofVec (tf.linear.mulVec a.n)
    (a.d + (tf.linear.mulVec a.n).dot tf.translation)

/-- Modelled from the spec: the AxisAlignedBox bound representation (min/max
corner); the `AABB` class itself lives outside src/. -/
@[ext]
structure AABB where
  min_ : Vector3
  max_ : Vector3

/-- The fully universal axis-aligned box: all six faces at the maximal
representable magnitude. -/
def aabbUniv : AABB :=
  ⟨⟨-FCL_MAX, -FCL_MAX, -FCL_MAX⟩, ⟨FCL_MAX, FCL_MAX, FCL_MAX⟩⟩

/-- Modelled from the spec: membership in an AxisAlignedBox, componentwise
`min <= x <= max`. -/
def AABB.contains (b : AABB) (v : Vector3) : Prop :=
  b.min_.x ≤ v.x ∧ v.x ≤ b.max_.x ∧
  b.min_.y ≤ v.y ∧ v.y ≤ b.max_.y ∧
  b.min_.z ≤ v.z ∧ v.z ≤ b.max_.z

/-- Body of `ComputeBVImpl<ScalarT, AABBd, Halfspace>::operator()` after the
initial `transform(s, tf)`: case split on exact zero tests of the transformed
normal's components. -/
def aabbFitH (h : Halfspace) : AABB :=
  if h.n.y = 0 ∧ h.n.z = 0 then
    (if h.n.x < 0 then { aabbUniv with min_ := { aabbUniv.min_ with x := -h.d } }
     else if 0 < h.n.x then { aabbUniv with max_ := { aabbUniv.max_ with x := h.d } }
     else aabbUniv)
  else if h.n.x = 0 ∧ h.n.z = 0 then
    (if h.n.y < 0 then { aabbUniv with min_ := { aabbUniv.min_ with y := -h.d } }
     else if 0 < h.n.y then { aabbUniv with max_ := { aabbUniv.max_ with y := h.d } }
     else aabbUniv)
  else if h.n.x = 0 ∧ h.n.y = 0 then
    (if h.n.z < 0 then { aabbUniv with min_ := { aabbUniv.min_ with z := -h.d } }
     else if 0 < h.n.z then { aabbUniv with max_ := { aabbUniv.max_ with z := h.d } }
     else aabbUniv)
  else aabbUniv

/-- `ComputeBVImpl<ScalarT, AABBd, Halfspace>::operator()`: transform the
half-space, then fit. -/
def computeBV_AABB (s : Halfspace) (tf : Transform3) : AABB :=
  aabbFitH (transform s tf)

/-- Exact alignment of a vector with one coordinate axis: exactly two
components are zero and the remaining one is nonzero (the spec's condition
for the AxisAlignedBox fit to tighten a face). -/
def axisAligned (n : Vector3) : Prop :=
  (n.y = 0 ∧ n.z = 0 ∧ n.x ≠ 0) ∨ (n.x = 0 ∧ n.z = 0 ∧ n.y ≠ 0) ∨
    (n.x = 0 ∧ n.y = 0 ∧ n.z ≠ 0)

/-- Modelled from the spec: the OrientedBox bound representation (center `To`,
axes, extents); the `OBB` class lives outside src/. -/
@[ext]
structure OBB where
  axis : Matrix3
  To : Vector3
  extent : Vector3

/-- `ComputeBVImpl<ScalarT, OBB, Halfspace>::operator()`: identity axes, zero
center, all extents at the maximal representable value; the shape and the
transform are ignored. -/
def computeBV_OBB (_ : Halfspace) (_ : Transform3) : OBB :=
  ⟨Matrix3.id, ⟨0, 0, 0⟩, ⟨FCL_MAX, FCL_MAX, FCL_MAX⟩⟩

/-- Modelled from the spec: membership in an OrientedBox, `|axis_i . (x - To)|
<= extent_i` for the three axes (rows of `axis`). -/
def OBB.contains (b : OBB) (v : Vector3) : Prop :=
  |b.axis.r0.dot (v.sub b.To)| ≤ b.extent.x ∧
  |b.axis.r1.dot (v.sub b.To)| ≤ b.extent.y ∧
  |b.axis.r2.dot (v.sub b.To)| ≤ b.extent.z

/-- Modelled from the spec: the RectangleSweptSphere bound representation
(center `Tr`, axes, two half-lengths, sweep radius); the `RSS` class lives
outside src/. -/
@[ext]
structure RSS where
  axis : Matrix3
  Tr : Vector3
  l0 : ℝ
  l1 : ℝ
  r : ℝ

/-- `ComputeBVImpl<ScalarT, RSS, Halfspace>::operator()`: identity axes, zero
center, infinite half-lengths and sweep radius; shape and transform ignored. -/
def computeBV_RSS (_ : Halfspace) (_ : Transform3) : RSS :=
  ⟨Matrix3.id, ⟨0, 0, 0⟩, FCL_MAX, FCL_MAX, FCL_MAX⟩

/-- Modelled from the spec: membership in a RectangleSweptSphere, squared
distance to the centered rectangle spanned by the first two axes at most
`r^2` (spec section 4.2: zero center, half-lengths, sweep radius). -/
def RSS.contains (b : RSS) (v : Vector3) : Prop :=
  ∃ s t : ℝ, |s| ≤ b.l0 ∧ |t| ≤ b.l1 ∧
    (v.sub ((b.Tr.add (Vector3.smul s b.axis.r0)).add (Vector3.smul t b.axis.r1))).dot
        (v.sub ((b.Tr.add (Vector3.smul s b.axis.r0)).add (Vector3.smul t b.axis.r1))) ≤
      b.r * b.r

/-- Modelled from the spec: the OrientedBox+RSS composite representation. -/
@[ext]
structure OBBRSS where
  obb : OBB
  rss : RSS

/-- `ComputeBVImpl<ScalarT, OBBRSS, Halfspace>::operator()`: delegate to the
OBB and RSS fits independently. -/
def computeBV_OBBRSS (s : Halfspace) (tf : Transform3) : OBBRSS :=
  ⟨computeBV_OBB s tf, computeBV_RSS s tf⟩

/-- Modelled from the spec: composite membership, no cross term. -/
def OBBRSS.contains (b : OBBRSS) (v : Vector3) : Prop :=
  b.obb.contains v ∧ b.rss.contains v

/-- Modelled from the spec: the sphere-shell+OrientedBox hybrid (`kIOS`);
the fit activates exactly one sphere, so only sphere 0 is modelled. -/
@[ext]
structure KIOS where
  num_spheres : ℕ
  obb : OBB
  sphere0_o : Vector3
  sphere0_r : ℝ

/-- `ComputeBVImpl<ScalarT, kIOS, Halfspace>::operator()`: one sphere at the
origin with maximal radius, plus the OBB fit. -/
def computeBV_kIOS (s : Halfspace) (tf : Transform3) : KIOS :=
  ⟨1, computeBV_OBB s tf, ⟨0, 0, 0⟩, FCL_MAX⟩

/-- Modelled from the spec: hybrid membership, inside the box and inside the
(single active) sphere. -/
def KIOS.contains (b : KIOS) (v : Vector3) : Prop :=
  b.obb.contains v ∧
    (v.sub b.sphere0_o).dot (v.sub b.sphere0_o) ≤ b.sphere0_r * b.sphere0_r

/-- Modelled from the spec: the k-DirectionPolytope with 8 direction pairs
(`KDOP<16>`, outside src/): 16 signed support values. -/
@[ext]
structure KDOP16 where
  dist : Fin 16 → ℝ

/-- The universal `KDOP<16>` support array: entries `0..7` (lower supports)
at `-FCL_MAX`, entries `8..15` (upper supports) at `FCL_MAX`. -/
def base16 : Fin 16 → ℝ := fun i => if (i : ℕ) < 8 then -FCL_MAX else FCL_MAX

/-- Modelled from the spec: membership in the 8-direction polytope.  The
direction family (spec section 4.2 and glossary) is the three coordinate
axes followed by the 2-term diagonals `(1,1,0), (1,0,1), (0,1,1), (1,-1,0),
(1,0,-1)`; entry `i` bounds `dir_i . x` below and entry `8+i` above. -/
def KDOP16.contains (b : KDOP16) (v : Vector3) : Prop :=
  (b.dist 0 ≤ v.x ∧ v.x ≤ b.dist 8) ∧
  (b.dist 1 ≤ v.y ∧ v.y ≤ b.dist 9) ∧
  (b.dist 2 ≤ v.z ∧ v.z ≤ b.dist 10) ∧
  (b.dist 3 ≤ v.x + v.y ∧ v.x + v.y ≤ b.dist 11) ∧
  (b.dist 4 ≤ v.x + v.z ∧ v.x + v.z ≤ b.dist 12) ∧
  (b.dist 5 ≤ v.y + v.z ∧ v.y + v.z ≤ b.dist 13) ∧
  (b.dist 6 ≤ v.x - v.y ∧ v.x - v.y ≤ b.dist 14) ∧
  (b.dist 7 ≤ v.x - v.z ∧ v.x - v.z ≤ b.dist 15)

/-- Body of `ComputeBVImpl<ScalarT, KDOPd<16>, Halfspace>::operator()` after
the initial `transform(s, tf)` (`D = 8`): initialize all entries to the
universal values, then the exact-match cascade; each branch overwrites a
single entry. -/
def kdop16FitH (h : Halfspace) : KDOP16 :=
  KDOP16.mk <|
    if h.n.y = 0 ∧ h.n.z = 0 then
      (if 0 < h.n.x then Function.update base16 8 h.d
       else Function.update base16 0 (-h.d))
    else if h.n.x = 0 ∧ h.n.z = 0 then
      (if 0 < h.n.y then Function.update base16 9 h.d
       else Function.update base16 1 (-h.d))
    else if h.n.x = 0 ∧ h.n.y = 0 then
      (if 0 < h.n.z then Function.update base16 10 h.d
       else Function.update base16 2 (-h.d))
    else if h.n.z = 0 ∧ h.n.x = h.n.y then
      (if 0 < h.n.x then Function.update base16 11 (h.n.x * h.d * 2)
       else Function.update base16 3 (h.n.x * h.d * 2))
    else if h.n.y = 0 ∧ h.n.x = h.n.z then
      (if 0 < h.n.y then Function.update base16 12 (h.n.x * h.d * 2)
       else Function.update base16 4 (h.n.x * h.d * 2))
    else if h.n.x = 0 ∧ h.n.y = h.n.z then
      (if 0 < h.n.y then Function.update base16 13 (h.n.y * h.d * 2)
       else Function.update base16 5 (h.n.y * h.d * 2))
    else if h.n.z = 0 ∧ h.n.x + h.n.y = 0 then
      (if 0 < h.n.x then Function.update base16 14 (h.n.x * h.d * 2)
       else Function.update base16 6 (h.n.x * h.d * 2))
    else if h.n.y = 0 ∧ h.n.x + h.n.z = 0 then
      (if 0 < h.n.x then Function.update base16 15 (h.n.x * h.d * 2)
       else Function.update base16 7 (h.n.x * h.d * 2))
    else base16

/-- `ComputeBVImpl<ScalarT, KDOPd<16>, Halfspace>::operator()`. -/
def computeBV_KDOP16 (s : Halfspace) (tf : Transform3) : KDOP16 :=
  kdop16FitH (transform s tf)

/-- Modelled from the spec: the k-DirectionPolytope with 9 direction pairs
(`KDOP<18>`): 18 signed support values. -/
@[ext]
structure KDOP18 where
  dist : Fin 18 → ℝ

/-- The universal `KDOP<18>` support array (`D = 9`). -/
def base18 : Fin 18 → ℝ := fun i => if (i : ℕ) < 9 then -FCL_MAX else FCL_MAX

/-- Body of `ComputeBVImpl<ScalarT, KDOPd<18>, Halfspace>::operator()` after
the initial `transform(s, tf)` (`D = 9`). -/
def kdop18FitH (h : Halfspace) : KDOP18 :=
  KDOP18.mk <|
    if h.n.y = 0 ∧ h.n.z = 0 then
      (if 0 < h.n.x then Function.update base18 9 h.d
       else Function.update base18 0 (-h.d))
    else if h.n.x = 0 ∧ h.n.z = 0 then
      (if 0 < h.n.y then Function.update base18 10 h.d
       else Function.update base18 1 (-h.d))
    else if h.n.x = 0 ∧ h.n.y = 0 then
      (if 0 < h.n.z then Function.update base18 11 h.d
       else Function.update base18 2 (-h.d))
    else if h.n.z = 0 ∧ h.n.x = h.n.y then
      (if 0 < h.n.x then Function.update base18 12 (h.n.x * h.d * 2)
       else Function.update base18 3 (h.n.x * h.d * 2))
    else if h.n.y = 0 ∧ h.n.x = h.n.z then
      (if 0 < h.n.y then Function.update base18 13 (h.n.x * h.d * 2)
       else Function.update base18 4 (h.n.x * h.d * 2))
    else if h.n.x = 0 ∧ h.n.y = h.n.z then
      (if 0 < h.n.y then Function.update base18 14 (h.n.y * h.d * 2)
       else Function.update base18 5 (h.n.y * h.d * 2))
    else if h.n.z = 0 ∧ h.n.x + h.n.y = 0 then
      (if 0 < h.n.x then Function.update base18 15 (h.n.x * h.d * 2)
       else Function.update base18 6 (h.n.x * h.d * 2))
    else if h.n.y = 0 ∧ h.n.x + h.n.z = 0 then
      (if 0 < h.n.x then Function.update base18 16 (h.n.x * h.d * 2)
       else Function.update base18 7 (h.n.x * h.d * 2))
    else if h.n.x = 0 ∧ h.n.y + h.n.z = 0 then
      (if 0 < h.n.y then Function.update base18 17 (h.n.y * h.d * 2)
       else Function.update base18 8 (h.n.y * h.d * 2))
    else base18

/-- `ComputeBVImpl<ScalarT, KDOPd<18>, Halfspace>::operator()`. -/
def computeBV_KDOP18 (s : Halfspace) (tf : Transform3) : KDOP18 :=
  kdop18FitH (transform s tf)

/-- Modelled from the spec: the k-DirectionPolytope with 12 direction pairs
(`KDOP<24>`): 24 signed support values. -/
@[ext]
structure KDOP24 where
  dist : Fin 24 → ℝ

/-- The universal `KDOP<24>` support array (`D = 12`). -/
def base24 : Fin 24 → ℝ := fun i => if (i : ℕ) < 12 then -FCL_MAX else FCL_MAX

/-- Body of `ComputeBVImpl<ScalarT, KDOPd<24>, Halfspace>::operator()` after
the initial `transform(s, tf)` (`D = 12`). -/
def kdop24FitH (h : Halfspace) : KDOP24 :=
  KDOP24.mk <|
    if h.n.y = 0 ∧ h.n.z = 0 then
      (if 0 < h.n.x then Function.update base24 12 h.d
       else Function.update base24 0 (-h.d))
    else if h.n.x = 0 ∧ h.n.z = 0 then
      (if 0 < h.n.y then Function.update base24 13 h.d
       else Function.update base24 1 (-h.d))
    else if h.n.x = 0 ∧ h.n.y = 0 then
      (if 0 < h.n.z then Function.update base24 14 h.d
       else Function.update base24 2 (-h.d))
    else if h.n.z = 0 ∧ h.n.x = h.n.y then
      (if 0 < h.n.x then Function.update base24 15 (h.n.x * h.d * 2)
       else Function.update base24 3 (h.n.x * h.d * 2))
    else if h.n.y = 0 ∧ h.n.x = h.n.z then
      (if 0 < h.n.y then Function.update base24 16 (h.n.x * h.d * 2)
       else Function.update base24 4 (h.n.x * h.d * 2))
    else if h.n.x = 0 ∧ h.n.y = h.n.z then
      (if 0 < h.n.y then Function.update base24 17 (h.n.y * h.d * 2)
       else Function.update base24 5 (h.n.y * h.d * 2))
    else if h.n.z = 0 ∧ h.n.x + h.n.y = 0 then
      (if 0 < h.n.x then Function.update base24 18 (h.n.x * h.d * 2)
       else Function.update base24 6 (h.n.x * h.d * 2))
    else if h.n.y = 0 ∧ h.n.x + h.n.z = 0 then
      (if 0 < h.n.x then Function.update base24 19 (h.n.x * h.d * 2)
       else Function.update base24 7 (h.n.x * h.d * 2))
    else if h.n.x = 0 ∧ h.n.y + h.n.z = 0 then
      (if 0 < h.n.y then Function.update base24 20 (h.n.y * h.d * 2)
       else Function.update base24 8 (h.n.y * h.d * 2))
    else if h.n.x + h.n.z = 0 ∧ h.n.x + h.n.y = 0 then
      (if 0 < h.n.x then Function.update base24 21 (h.n.x * h.d * 3)
       else Function.update base24 9 (h.n.x * h.d * 3))
    else if h.n.x + h.n.y = 0 ∧ h.n.y + h.n.z = 0 then
      (if 0 < h.n.x then Function.update base24 22 (h.n.x * h.d * 3)
       else Function.update base24 10 (h.n.x * h.d * 3))
    else if h.n.x + h.n.y = 0 ∧ h.n.x + h.n.z = 0 then
      (if 0 < h.n.y then Function.update base24 23 (h.n.y * h.d * 3)
       else Function.update base24 11 (h.n.y * h.d * 3))
    else base24

/-- `ComputeBVImpl<ScalarT, KDOPd<24>, Halfspace>::operator()`. -/
def computeBV_KDOP24 (s : Halfspace) (tf : Transform3) : KDOP24 :=
  kdop24FitH (transform s tf)

/-- A concrete half-space whose unit normal lies exactly along the diagonal
direction `(1,0,1)`: `n = (1,0,1)/sqrt 2`, `d = 3`. -/
def hsXZ : Halfspace := ⟨⟨1 / Real.sqrt 2, 0, 1 / Real.sqrt 2⟩, 3⟩

/-- A concrete half-space whose unit normal lies exactly along the diagonal
direction `(1,1,0)`: `n = (1,1,0)/sqrt 2`, `d = 3` (the spec's example). -/
def hsXY : Halfspace := ⟨⟨1 / Real.sqrt 2, 1 / Real.sqrt 2, 0⟩, 3⟩

/-- Modelled from the spec: the `OBJECT_TYPE` enum of `CollisionGeometry`
(outside src/); `OT_GEOM` is the PRIMITIVE kind, `OT_BVH` the HIERARCHY
kind. -/
inductive OBJECT_TYPE where
  | OT_UNKNOWN
  | OT_BVH
  | OT_GEOM
  | OT_OCTREE
deriving DecidableEq

/-- Modelled from the spec: the interface of `CollisionGeometry` consumed by
the distance driver: an object kind and a node-type tag (node-type tags are
represented as naturals). -/
structure CollisionGeometry where
  objectType : OBJECT_TYPE
  nodeType : ℕ

/-- Modelled from the spec: a `CollisionObject` bundles a geometry with its
current transform (`collisionGeometry()` / `getTransform()`). -/
structure CollisionObject where
  geom : CollisionGeometry
  tf : Transform3

/-- A stored distance routine: `(o1, tf1, o2, tf2, result) --> (distance,
result)` over an abstract result-object state `R`.  The solver pointer and
the request, which the driver threads through unchanged, are elided. -/
def DistFunc (R : Type) : Type :=
  CollisionGeometry → Transform3 → CollisionGeometry → Transform3 → R → ℝ × R

/-- The dispatch table `DistanceFunctionMatrix::distance_matrix`: a dense
`(row node tag, column node tag) --> optional routine` map; `none` is an
empty cell (a null function pointer). -/
abbrev DistanceFunctionMatrix (R : Type) : Type := ℕ → ℕ → Option (DistFunc R)

/-- Observable side effects of one driver call: solver construction and
deletion (`new NarrowPhaseSolver()` / `delete nsolver`), the `std::cerr`
diagnostic naming the two node types, and the invocation of a table cell. -/
inductive Event where
  | newSolver
  | deleteSolver
  | warnUnsupported (t1 t2 : ℕ)
  | invoke (row col : ℕ)
deriving DecidableEq

/-- The outcome of a driver call: the returned distance, the final state of
the result object, and the trace of observable events in order. -/
structure DriverOut (R : Type) where
  res : ℝ
  result : R
  events : List Event

/-- The geometry-level distance driver
(`distance(o1, tf1, o2, tf2, nsolver_, request, result)`, the
NarrowPhaseSolver overload): construct a solver when none is supplied, look
up the dispatch table with the `OT_BVH` operand as the row key (swapping when
`o1` is `OT_GEOM` and `o2` is `OT_BVH`), invoke the routine if the cell is
occupied, otherwise warn and leave the sentinel `FCL_MAX` in `res`, and
finally delete the solver when it was constructed here.  The per-strategy
static table is a parameter (`getDistanceFunctionLookTable` returns a
process-scoped table per solver type). -/
def distanceGeomSolver {S R : Type} (looktable : DistanceFunctionMatrix R)
    (nsolver? : Option S) (o1 : CollisionGeometry) (tf1 : Transform3)
    (o2 : CollisionGeometry) (tf2 : Transform3) (result0 : R) : DriverOut R :=
  let acquire : List Event := if nsolver?.isSome then [] else [Event.newSolver]
  let release : List Event := if nsolver?.isSome then [] else [Event.deleteSolver]
  let core : ℝ × R × Event :=
    if o1.objectType = OBJECT_TYPE.OT_GEOM ∧ o2.objectType = OBJECT_TYPE.OT_BVH then
      match looktable o2.nodeType o1.nodeType with
      | none => (FCL_MAX, result0, Event.warnUnsupported o1.nodeType o2.nodeType)
      | some f =>
          ((f o2 tf2 o1 tf1 result0).1, (f o2 tf2 o1 tf1 result0).2,
            Event.invoke o2.nodeType o1.nodeType)
    else
      match looktable o1.nodeType o2.nodeType with
      | none => (FCL_MAX, result0, Event.warnUnsupported o1.nodeType o2.nodeType)
      | some f =>
          ((f o1 tf1 o2 tf2 result0).1, (f o1 tf1 o2 tf2 result0).2,
            Event.invoke o1.nodeType o2.nodeType)
  ⟨core.1, core.2.1, acquire ++ [core.2.2] ++ release⟩

/-- The object-level solver-parameterized driver (`distance(o1, o2, nsolver,
request, result)`): unpack the two collision objects and delegate. -/
def distanceObjSolver {S R : Type} (looktable : DistanceFunctionMatrix R)
    (nsolver? : Option S) (o1 o2 : CollisionObject) (result0 : R) : DriverOut R :=
  distanceGeomSolver looktable nsolver? o1.geom o1.tf o2.geom o2.tf result0

/-- Modelled from the spec: the solver-strategy enum of the request
(`GJKSolverType`).  `GST_OUT_OF_RANGE` stands for any integral value outside
the two declared enumerators, which a C++ enum variable may carry and which
the top-level switch sends to its `default` branch. -/
inductive GJKSolverType where
  | GST_LIBCCD
  | GST_INDEP
  | GST_OUT_OF_RANGE
deriving DecidableEq

/-- Modelled from the spec: the distance request, restricted to the field the
driver reads (the solver-strategy selector). -/
structure DistanceRequest where
  gjk_solver_type : GJKSolverType

/-- The geometry-level top entry point (`distance(o1, tf1, o2, tf2, request,
result)`, Scalar overload): switch on the requested solver strategy,
construct the matching solver on the stack (so the inner driver receives a
non-null solver pointer and the table of that strategy), or return `-1` on an
out-of-range strategy.  The two per-strategy static tables are parameters. -/
def distanceGeomTop {R : Type} (tableCCD tableIndep : DistanceFunctionMatrix R)
    (o1 : CollisionGeometry) (tf1 : Transform3) (o2 : CollisionGeometry)
    (tf2 : Transform3) (request : DistanceRequest) (result0 : R) : DriverOut R :=
  match request.gjk_solver_type with
  | GJKSolverType.GST_LIBCCD =>
      distanceGeomSolver tableCCD (some ()) o1 tf1 o2 tf2 result0
  | GJKSolverType.GST_INDEP =>
      distanceGeomSolver tableIndep (some ()) o1 tf1 o2 tf2 result0
  | GJKSolverType.GST_OUT_OF_RANGE => ⟨-1, result0, []⟩

/-- The object-level top entry point (`distance(o1, o2, request, result)`,
Scalar overload): the same switch, delegating to the object-level driver. -/
def distanceObjTop {R : Type} (tableCCD tableIndep : DistanceFunctionMatrix R)
    (o1 o2 : CollisionObject) (request : DistanceRequest) (result0 : R) :
    DriverOut R :=
  match request.gjk_solver_type with
  | GJKSolverType.GST_LIBCCD =>
      distanceObjSolver tableCCD (some ()) o1 o2 result0
  | GJKSolverType.GST_INDEP =>
      distanceObjSolver tableIndep (some ()) o1 o2 result0
  | GJKSolverType.GST_OUT_OF_RANGE => ⟨-1, result0, []⟩

/-- Concrete unit half-space used to witness the transform algebra. -/
def hsW : Halfspace := ⟨⟨1, 0, 0⟩, 2⟩

/-- A concrete rigid transform: rotation by 90 degrees about z, translation
`(1,2,3)`. -/
def T1w : Transform3 := ⟨⟨⟨0, -1, 0⟩, ⟨1, 0, 0⟩, ⟨0, 0, 1⟩⟩, ⟨1, 2, 3⟩⟩

/-- A concrete rigid transform: rotation by 90 degrees about y, translation
`(4,0,0)`. -/
def T2w : Transform3 := ⟨⟨⟨0, 0, 1⟩, ⟨0, 1, 0⟩, ⟨-1, 0, 0⟩⟩, ⟨4, 0, 0⟩⟩

end

section Lemmas

lemma FCL_MAX_pos : 0 < FCL_MAX := by norm_num [FCL_MAX]

lemma dot_self_nonneg (v : Vector3) : 0 ≤ v.dot v := by
  simp only [Vector3.dot]
  nlinarith [mul_self_nonneg v.x, mul_self_nonneg v.y, mul_self_nonneg v.z]

lemma dot_zero_right (v : Vector3) : v.dot ⟨0, 0, 0⟩ = 0 := by
  simp [Vector3.dot]

lemma dot_add_right (u v w : Vector3) : u.dot (v.add w) = u.dot v + u.dot w := by
  simp only [Vector3.dot, Vector3.add]
  ring

lemma mulVec_id (v : Vector3) : Matrix3.id.mulVec v = v := by
  ext <;> simp [Matrix3.mulVec, Matrix3.id, Vector3.dot]

lemma mulVec_mul (a b : Matrix3) (v : Vector3) :
    (a.mul b).mulVec v = a.mulVec (b.mulVec v) := by
  ext <;> simp [Matrix3.mul, Matrix3.mulVec, Vector3.dot] <;> ring

lemma isRigid_id : IsRigid idTransform := by
  intro v w
  simp [idTransform, mulVec_id]

lemma isRigid_compose {t2 t1 : Transform3} (h2 : IsRigid t2) (h1 : IsRigid t1) :
    IsRigid (t2.compose t1) := by
  intro v w
  show ((t2.linear.mul t1.linear).mulVec v).dot ((t2.linear.mul t1.linear).mulVec w) = _
  rw [mulVec_mul, mulVec_mul, h2, h1]

lemma unitNormalTest_of_unit (n : Vector3) (d : ℝ) (hu : n.dot n = 1) :
    Halfspace.unitNormalTest n d = ⟨n, d⟩ := by
  unfold Halfspace.unitNormalTest
  have hn : n.norm = 1 := by
    unfold Vector3.norm
    rw [hu, Real.sqrt_one]
  rw [hn]
  norm_num

lemma transform_eq_of_unit_rigid (a : Halfspace) (tf : Transform3)
    (hu : a.n.dot a.n = 1) (hr : IsRigid tf) :
    transform a tf =
      ⟨tf.linear.mulVec a.n, a.d + (tf.linear.mulVec a.n).dot tf.translation⟩ := by
  unfold transform Halfspace.ofVec
  exact unitNormalTest_of_unit _ _ (by rw [hr]; exact hu)

lemma transform_id_of_unit (a : Halfspace) (hu : a.n.dot a.n = 1) :
    transform a idTransform = a := by
  rw [transform_eq_of_unit_rigid a idTransform hu isRigid_id]
  show ({ n := Matrix3.id.mulVec a.n,
          d := a.d + (Matrix3.id.mulVec a.n).dot ⟨0, 0, 0⟩ } : Halfspace) = a
  rw [mulVec_id, dot_zero_right, add_zero]

lemma aabbFitH_eq_univ_of_not_aligned (h : Halfspace) (ha : ¬ axisAligned h.n) :
    aabbFitH h = aabbUniv := by
  unfold aabbFitH
  by_cases c0 : h.n.y = 0 ∧ h.n.z = 0
  · have hx0 : h.n.x = 0 := by
      by_contra hne
      exact ha (Or.inl ⟨c0.1, c0.2, hne⟩)
    rw [if_pos c0, if_neg (by rw [hx0]; exact lt_irrefl 0),
      if_neg (by rw [hx0]; exact lt_irrefl 0)]
  · by_cases c1 : h.n.x = 0 ∧ h.n.z = 0
    · have hy0 : h.n.y = 0 := by
        by_contra hne
        exact ha (Or.inr (Or.inl ⟨c1.1, c1.2, hne⟩))
      rw [if_neg c0, if_pos c1, if_neg (by rw [hy0]; exact lt_irrefl 0),
        if_neg (by rw [hy0]; exact lt_irrefl 0)]
    · by_cases c2 : h.n.x = 0 ∧ h.n.y = 0
      · have hz0 : h.n.z = 0 := by
          by_contra hne
          exact ha (Or.inr (Or.inr ⟨c2.1, c2.2, hne⟩))
        rw [if_neg c0, if_neg c1, if_pos c2, if_neg (by rw [hz0]; exact lt_irrefl 0),
          if_neg (by rw [hz0]; exact lt_irrefl 0)]
      · rw [if_neg c0, if_neg c1, if_neg c2]

lemma sqrt2_pos : 0 < Real.sqrt 2 := Real.sqrt_pos.mpr (by norm_num)

lemma sqrt2_mul_self : Real.sqrt 2 * Real.sqrt 2 = 2 :=
  Real.mul_self_sqrt (by norm_num)

lemma invsqrt2_pos : 0 < 1 / Real.sqrt 2 := by positivity

lemma invsqrt2_sq : 1 / Real.sqrt 2 * (1 / Real.sqrt 2) = 1 / 2 := by
  rw [div_mul_div_comm, one_mul, sqrt2_mul_self]

lemma hsXZ_unit : hsXZ.n.dot hsXZ.n = 1 := by
  simp only [hsXZ, Vector3.dot]
  rw [invsqrt2_sq]
  norm_num

lemma hsXY_unit : hsXY.n.dot hsXY.n = 1 := by
  simp only [hsXY, Vector3.dot]
  rw [invsqrt2_sq]
  norm_num

lemma kdop16_hsXZ_eval :
    computeBV_KDOP16 hsXZ idTransform =
      ⟨Function.update base16 4 (1 / Real.sqrt 2 * 3 * 2)⟩ := by
  unfold computeBV_KDOP16
  rw [transform_id_of_unit hsXZ hsXZ_unit]
  unfold kdop16FitH
  have hnz : (1 : ℝ) / Real.sqrt 2 ≠ 0 := ne_of_gt invsqrt2_pos
  rw [if_neg (fun hc => hnz hc.2), if_neg (fun hc => hnz hc.1),
    if_neg (fun hc => hnz hc.1), if_neg (fun hc => hnz hc.1),
    if_pos ⟨rfl, rfl⟩, if_neg (show ¬ 0 < hsXZ.n.y from lt_irrefl 0)]
  rfl

lemma kdop16_hsXY_eval :
    computeBV_KDOP16 hsXY idTransform =
      ⟨Function.update base16 11 (1 / Real.sqrt 2 * 3 * 2)⟩ := by
  unfold computeBV_KDOP16
  rw [transform_id_of_unit hsXY hsXY_unit]
  unfold kdop16FitH
  have hnz : (1 : ℝ) / Real.sqrt 2 ≠ 0 := ne_of_gt invsqrt2_pos
  rw [if_neg (fun hc => hnz hc.1), if_neg (fun hc => hnz hc.1),
    if_neg (fun hc => hnz hc.1), if_pos ⟨rfl, rfl⟩,
    if_pos (show 0 < hsXY.n.x from invsqrt2_pos)]
  rfl

lemma distanceGeomSolver_none {S R : Type} (looktable : DistanceFunctionMatrix R)
    (nsolver? : Option S) (o1 : CollisionGeometry) (tf1 : Transform3)
    (o2 : CollisionGeometry) (tf2 : Transform3) (result0 : R)
    (h12 : looktable o1.nodeType o2.nodeType = none)
    (h21 : looktable o2.nodeType o1.nodeType = none) :
    (distanceGeomSolver looktable nsolver? o1 tf1 o2 tf2 result0).res = FCL_MAX ∧
    (distanceGeomSolver looktable nsolver? o1 tf1 o2 tf2 result0).result = result0 ∧
    Event.warnUnsupported o1.nodeType o2.nodeType ∈
      (distanceGeomSolver looktable nsolver? o1 tf1 o2 tf2 result0).events ∧
    ∀ r c, Event.invoke r c ∉
      (distanceGeomSolver looktable nsolver? o1 tf1 o2 tf2 result0).events := by
  by_cases hc : o1.objectType = OBJECT_TYPE.OT_GEOM ∧ o2.objectType = OBJECT_TYPE.OT_BVH
  · cases nsolver? <;>
      refine ⟨by simp [distanceGeomSolver, hc.1, hc.2, h21], by simp [distanceGeomSolver, hc.1, hc.2, h21],
        by simp [distanceGeomSolver, hc.1, hc.2, h21], fun r c => by simp [distanceGeomSolver, hc.1, hc.2, h21]⟩
  · cases nsolver? <;>
      refine ⟨by simp [distanceGeomSolver, hc, h12], by simp [distanceGeomSolver, hc, h12],
        by simp [distanceGeomSolver, hc, h12], fun r c => by simp [distanceGeomSolver, hc, h12]⟩

lemma distanceGeomSolver_geom_bvh {S R : Type} (looktable : DistanceFunctionMatrix R)
    (nsolver? : Option S) (p : CollisionGeometry) (tfp : Transform3)
    (h : CollisionGeometry) (tfh : Transform3) (result0 : R) (f : DistFunc R)
    (hp : p.objectType = OBJECT_TYPE.OT_GEOM) (hh : h.objectType = OBJECT_TYPE.OT_BVH)
    (hf : looktable h.nodeType p.nodeType = some f) :
    distanceGeomSolver looktable nsolver? p tfp h tfh result0 =
      ⟨(f h tfh p tfp result0).1, (f h tfh p tfp result0).2,
        (if nsolver?.isSome then [] else [Event.newSolver]) ++
          [Event.invoke h.nodeType p.nodeType] ++
          (if nsolver?.isSome then [] else [Event.deleteSolver])⟩ := by
  simp [distanceGeomSolver, hp, hh, hf]

lemma distanceGeomSolver_bvh_geom {S R : Type} (looktable : DistanceFunctionMatrix R)
    (nsolver? : Option S) (h : CollisionGeometry) (tfh : Transform3)
    (p : CollisionGeometry) (tfp : Transform3) (result0 : R) (f : DistFunc R)
    (hh : h.objectType = OBJECT_TYPE.OT_BVH)
    (hf : looktable h.nodeType p.nodeType = some f) :
    distanceGeomSolver looktable nsolver? h tfh p tfp result0 =
      ⟨(f h tfh p tfp result0).1, (f h tfh p tfp result0).2,
        (if nsolver?.isSome then [] else [Event.newSolver]) ++
          [Event.invoke h.nodeType p.nodeType] ++
          (if nsolver?.isSome then [] else [Event.deleteSolver])⟩ := by
  have hc : ¬(h.objectType = OBJECT_TYPE.OT_GEOM ∧ p.objectType = OBJECT_TYPE.OT_BVH) := by
    rw [hh]
    rintro ⟨h1, -⟩
    exact absurd h1 (by decide)
  simp [distanceGeomSolver, hc, hf]

end Lemmas

section ClaimTheorems

/-- Claim C7: for every half-space and point, `signedDistance(p)` is exactly
`n . p - d` and `distance(p)` is exactly the absolute value of the signed
distance, hence nonnegative. -/
theorem C7_point_queries (s : Halfspace) (p : Vector3) :
    s.signedDistance p = s.n.dot p - s.d ∧
      s.distance p = |s.signedDistance p| ∧ 0 ≤ s.distance p :=
  ⟨rfl, rfl, abs_nonneg _⟩

/-- Claim C6: constructing a half-space from coefficients `(a,b,c,d)` with
`(a,b,c)` of nonzero length `L` yields the unit normal `(a,b,c)/L` and offset
`d/L`; a zero-length input normal yields exactly `n = (1,0,0)`, `d = 0`.
Both constructors agree. -/
theorem C6_constructor_normalization (a b c d : ℝ) :
    (¬(a = 0 ∧ b = 0 ∧ c = 0) →
      (Halfspace.ofCoeffs a b c d).n.x = a / Vector3.norm ⟨a, b, c⟩ ∧
      (Halfspace.ofCoeffs a b c d).n.y = b / Vector3.norm ⟨a, b, c⟩ ∧
      (Halfspace.ofCoeffs a b c d).n.z = c / Vector3.norm ⟨a, b, c⟩ ∧
      (Halfspace.ofCoeffs a b c d).d = d / Vector3.norm ⟨a, b, c⟩ ∧
      (Halfspace.ofCoeffs a b c d).n.dot ((Halfspace.ofCoeffs a b c d).n) = 1) ∧
    ((a = 0 ∧ b = 0 ∧ c = 0) → Halfspace.ofCoeffs a b c d = ⟨⟨1, 0, 0⟩, 0⟩) ∧
    Halfspace.ofVec ⟨a, b, c⟩ d = Halfspace.ofCoeffs a b c d := by
  refine ⟨?_, ?_, rfl⟩
  · intro hne
    have hS : 0 < Vector3.dot ⟨a, b, c⟩ ⟨a, b, c⟩ := by
      rcases lt_or_eq_of_le (dot_self_nonneg ⟨a, b, c⟩) with h | h
      · exact h
      · exfalso
        apply hne
        simp only [Vector3.dot] at h
        refine ⟨?_, ?_, ?_⟩ <;> nlinarith [mul_self_nonneg a, mul_self_nonneg b, mul_self_nonneg c]
    have hL : 0 < Vector3.norm ⟨a, b, c⟩ := Real.sqrt_pos.mpr hS
    have hLL : Vector3.norm ⟨a, b, c⟩ * Vector3.norm ⟨a, b, c⟩ =
        Vector3.dot ⟨a, b, c⟩ ⟨a, b, c⟩ := Real.mul_self_sqrt hS.le
    unfold Halfspace.ofCoeffs Halfspace.unitNormalTest
    rw [if_pos hL]
    simp only [mul_one_div]
    refine ⟨trivial, trivial, trivial, trivial, ?_⟩
    simp only [Vector3.dot] at hLL ⊢
    field_simp
    nlinarith [hLL]
  · rintro ⟨ha, hb, hc⟩
    subst ha; subst hb; subst hc
    unfold Halfspace.ofCoeffs Halfspace.unitNormalTest
    have hz : ¬ 0 < (⟨0, 0, 0⟩ : Vector3).norm := by
      simp [Vector3.norm, Vector3.dot]
    rw [if_neg hz]

/-- Claim C6 witness: the constructor at `(3, 0, 4, 10)`. -/
theorem C6_witness :
    ¬((3 : ℝ) = 0 ∧ (0 : ℝ) = 0 ∧ (4 : ℝ) = 0) ∧
      ((Halfspace.ofCoeffs 3 0 4 10).n.x = 3 / Vector3.norm ⟨3, 0, 4⟩ ∧
       (Halfspace.ofCoeffs 3 0 4 10).n.y = 0 / Vector3.norm ⟨3, 0, 4⟩ ∧
       (Halfspace.ofCoeffs 3 0 4 10).n.z = 4 / Vector3.norm ⟨3, 0, 4⟩ ∧
       (Halfspace.ofCoeffs 3 0 4 10).d = 10 / Vector3.norm ⟨3, 0, 4⟩ ∧
       (Halfspace.ofCoeffs 3 0 4 10).n.dot ((Halfspace.ofCoeffs 3 0 4 10).n) = 1) :=
  ⟨by norm_num, (C6_constructor_normalization 3 0 4 10).1 (by norm_num)⟩

/-- Claim C8: for a unit half-space, transforming by the identity is the
identity, and transforming by `T1` then `T2` (both rigid) equals transforming
by the composition `T2 . T1`. -/
theorem C8_transform_algebra (h : Halfspace) (T1 T2 : Transform3)
    (hu : h.n.dot h.n = 1) (h1 : IsRigid T1) (h2 : IsRigid T2) :
    transform h idTransform = h ∧
      transform (transform h T1) T2 = transform h (T2.compose T1) := by
  refine ⟨transform_id_of_unit h hu, ?_⟩
  have hu1 : (T1.linear.mulVec h.n).dot (T1.linear.mulVec h.n) = 1 := by
    rw [h1]; exact hu
  rw [transform_eq_of_unit_rigid h T1 hu h1,
    transform_eq_of_unit_rigid _ T2 hu1 h2,
    transform_eq_of_unit_rigid h (T2.compose T1) hu (isRigid_compose h2 h1)]
  have hn : (T2.compose T1).linear.mulVec h.n =
      T2.linear.mulVec (T1.linear.mulVec h.n) := by
    show (T2.linear.mul T1.linear).mulVec h.n = _
    rw [mulVec_mul]
  apply Halfspace.ext
  · exact hn.symm
  · show h.d + (T1.linear.mulVec h.n).dot T1.translation +
        (T2.linear.mulVec (T1.linear.mulVec h.n)).dot T2.translation =
      h.d + ((T2.compose T1).linear.mulVec h.n).dot ((T2.linear.mulVec T1.translation).add T2.translation)
    rw [hn, dot_add_right, h2]
    ring

/-- Claim C8 witness: concrete unit half-space and two concrete rigid
transforms. -/
theorem C8_witness :
    (hsW.n.dot hsW.n = 1 ∧ IsRigid T1w ∧ IsRigid T2w) ∧
      (transform hsW idTransform = hsW ∧
        transform (transform hsW T1w) T2w = transform hsW (T2w.compose T1w)) := by
  have hu : hsW.n.dot hsW.n = 1 := by norm_num [hsW, Vector3.dot]
  have h1 : IsRigid T1w := by
    intro v w
    simp only [T1w, Matrix3.mulVec, Vector3.dot]
    ring
  have h2 : IsRigid T2w := by
    intro v w
    simp only [T2w, Matrix3.mulVec, Vector3.dot]
    ring
  exact ⟨⟨hu, h1, h2⟩, C8_transform_algebra hsW T1w T2w hu h1 h2⟩

/-- Claim C2: the AxisAlignedBox fit of a half-space under any transform
starts from the fully universal box and tightens exactly one face exactly
when the transformed normal is exactly aligned with a coordinate axis (two
components exactly zero, the third nonzero): the axis max is clamped to `d`
for a positive component, the axis min to `-d` for a negative one; in every
other case the box stays fully universal.  In particular the fit of
`n = (1,0,0), d = 5` has `max.x = 5` and all other faces at the maximal
representable magnitude. -/
theorem C2_aabb_halfspace_fit (s : Halfspace) (tf : Transform3) :
    ((transform s tf).n.y = 0 → (transform s tf).n.z = 0 → 0 < (transform s tf).n.x →
      computeBV_AABB s tf =
        { aabbUniv with max_ := { aabbUniv.max_ with x := (transform s tf).d } }) ∧
    ((transform s tf).n.y = 0 → (transform s tf).n.z = 0 → (transform s tf).n.x < 0 →
      computeBV_AABB s tf =
        { aabbUniv with min_ := { aabbUniv.min_ with x := -(transform s tf).d } }) ∧
    ((transform s tf).n.x = 0 → (transform s tf).n.z = 0 → 0 < (transform s tf).n.y →
      computeBV_AABB s tf =
        { aabbUniv with max_ := { aabbUniv.max_ with y := (transform s tf).d } }) ∧
    ((transform s tf).n.x = 0 → (transform s tf).n.z = 0 → (transform s tf).n.y < 0 →
      computeBV_AABB s tf =
        { aabbUniv with min_ := { aabbUniv.min_ with y := -(transform s tf).d } }) ∧
    ((transform s tf).n.x = 0 → (transform s tf).n.y = 0 → 0 < (transform s tf).n.z →
      computeBV_AABB s tf =
        { aabbUniv with max_ := { aabbUniv.max_ with z := (transform s tf).d } }) ∧
    ((transform s tf).n.x = 0 → (transform s tf).n.y = 0 → (transform s tf).n.z < 0 →
      computeBV_AABB s tf =
        { aabbUniv with min_ := { aabbUniv.min_ with z := -(transform s tf).d } }) ∧
    (¬ axisAligned (transform s tf).n → computeBV_AABB s tf = aabbUniv) ∧
    computeBV_AABB (Halfspace.ofCoeffs 1 0 0 5) idTransform =
      { aabbUniv with max_ := { aabbUniv.max_ with x := 5 } } := by
  unfold computeBV_AABB
  refine ⟨?_, ?_, ?_, ?_, ?_, ?_, ?_, ?_⟩
  · intro hy hz hx
    unfold aabbFitH
    rw [if_pos ⟨hy, hz⟩, if_neg (lt_asymm hx), if_pos hx]
  · intro hy hz hx
    unfold aabbFitH
    rw [if_pos ⟨hy, hz⟩, if_pos hx]
  · intro hx hz hy
    unfold aabbFitH
    rw [if_neg (fun hc => ne_of_gt hy hc.1), if_pos ⟨hx, hz⟩,
      if_neg (lt_asymm hy), if_pos hy]
  · intro hx hz hy
    unfold aabbFitH
    rw [if_neg (fun hc => ne_of_lt hy hc.1), if_pos ⟨hx, hz⟩, if_pos hy]
  · intro hx hy hz
    unfold aabbFitH
    rw [if_neg (fun hc => ne_of_gt hz hc.2), if_neg (fun hc => ne_of_gt hz hc.2),
      if_pos ⟨hx, hy⟩, if_neg (lt_asymm hz), if_pos hz]
  · intro hx hy hz
    unfold aabbFitH
    rw [if_neg (fun hc => ne_of_lt hz hc.2), if_neg (fun hc => ne_of_lt hz hc.2),
      if_pos ⟨hx, hy⟩, if_pos hz]
  · exact fun hna => aabbFitH_eq_univ_of_not_aligned _ hna
  · have e1 : Halfspace.ofCoeffs 1 0 0 5 = ⟨⟨1, 0, 0⟩, 5⟩ :=
      unitNormalTest_of_unit ⟨1, 0, 0⟩ 5 (by norm_num [Vector3.dot])
    rw [e1, transform_id_of_unit ⟨⟨1, 0, 0⟩, 5⟩ (by norm_num [Vector3.dot])]
    unfold aabbFitH
    rw [if_pos ⟨rfl, rfl⟩,
      if_neg (show ¬ (⟨⟨1, 0, 0⟩, 5⟩ : Halfspace).n.x < 0 by norm_num),
      if_pos (show (0 : ℝ) < (⟨⟨1, 0, 0⟩, 5⟩ : Halfspace).n.x by norm_num)]

/-- Claim C2 witness: the x-axis-aligned case at `n = (1,0,0)`, `d = 2`,
identity transform. -/
theorem C2_witness :
    ((transform hsW idTransform).n.y = 0 ∧ (transform hsW idTransform).n.z = 0 ∧
      0 < (transform hsW idTransform).n.x) ∧
    computeBV_AABB hsW idTransform =
      { aabbUniv with max_ := { aabbUniv.max_ with x := (transform hsW idTransform).d } } := by
  have hu : hsW.n.dot hsW.n = 1 := by norm_num [hsW, Vector3.dot]
  have ht := transform_id_of_unit hsW hu
  have hy : (transform hsW idTransform).n.y = 0 := by rw [ht]; norm_num [hsW]
  have hz : (transform hsW idTransform).n.z = 0 := by rw [ht]; norm_num [hsW]
  have hx : 0 < (transform hsW idTransform).n.x := by rw [ht]; norm_num [hsW]
  exact ⟨⟨hy, hz, hx⟩, (C2_aabb_halfspace_fit hsW idTransform).1 hy hz hx⟩

/-- Claim C1: the fitted bound does NOT always contain the transformed
half-space.  For the half-space with unit normal `(1,0,1)/sqrt 2` and offset
`3` under the identity (rigid) transform, the `KDOP<16>` fit excludes the
origin, although the origin lies in the half-space (`n . 0 = 0 <= 3`): the
fit writes the lower support entry `4` of the `(1,0,1)` direction to the
positive value `n.x * d * 2`, because the sign test of that branch reads
`n.y`, which the branch guard forces to `0`. -/
theorem C1_kdop16_unsound :
    hsXZ.n.dot hsXZ.n = 1 ∧ IsRigid idTransform ∧
    (transform hsXZ idTransform).n.dot ⟨0, 0, 0⟩ ≤ (transform hsXZ idTransform).d ∧
    ¬ KDOP16.contains (computeBV_KDOP16 hsXZ idTransform) ⟨0, 0, 0⟩ := by
  refine ⟨hsXZ_unit, isRigid_id, ?_, ?_⟩
  · rw [transform_id_of_unit hsXZ hsXZ_unit, dot_zero_right]
    norm_num [hsXZ]
  · rw [kdop16_hsXZ_eval]
    intro hc
    have h4 := hc.2.2.2.2.1.1
    simp only [Function.update_same] at h4
    nlinarith [invsqrt2_pos]

/-- Claim C3: the k-DOP fit cascade does NOT always tighten the support
entry whose sign agrees with the normal.  For the half-space with unit
normal `(1,0,1)/sqrt 2` (positive components) and offset `3`, the `KDOP<16>`
fit leaves the upper entry `12` of the `(1,0,1)` direction at `FCL_MAX` and
instead writes the lower entry `4`, because the branch's sign test reads
`n.y = 0`.  The spec's cited `(1,1,0)/sqrt 2` example does behave as
claimed: exactly entry `11` becomes finite, with value `n.x * d * 2`. -/
theorem C3_kdop16_eval :
    (computeBV_KDOP16 hsXZ idTransform).dist =
        Function.update base16 4 (1 / Real.sqrt 2 * 3 * 2) ∧
    (computeBV_KDOP16 hsXZ idTransform).dist 12 = FCL_MAX ∧
    0 < (transform hsXZ idTransform).n.x ∧
    (computeBV_KDOP16 hsXY idTransform).dist =
        Function.update base16 11 (1 / Real.sqrt 2 * 3 * 2) ∧
    1 / Real.sqrt 2 * 3 * 2 ≠ FCL_MAX ∧ 1 / Real.sqrt 2 * 3 * 2 ≠ -FCL_MAX := by
  have hle : (1 : ℝ) / Real.sqrt 2 ≤ 1 := by
    rw [div_le_one sqrt2_pos]
    have h1 : Real.sqrt 1 ≤ Real.sqrt 2 := Real.sqrt_le_sqrt (by norm_num)
    rwa [Real.sqrt_one] at h1
  have h6 : (6 : ℝ) < FCL_MAX := by norm_num [FCL_MAX]
  refine ⟨by rw [kdop16_hsXZ_eval], ?_, ?_, by rw [kdop16_hsXY_eval], ?_, ?_⟩
  · rw [kdop16_hsXZ_eval]
    show Function.update base16 4 (1 / Real.sqrt 2 * 3 * 2) 12 = FCL_MAX
    rw [Function.update_noteq (by decide)]
    rfl
  · rw [transform_id_of_unit hsXZ hsXZ_unit]
    exact invsqrt2_pos
  · intro he
    nlinarith [invsqrt2_pos]
  · intro he
    nlinarith [invsqrt2_pos, FCL_MAX_pos]

/-- Claim C4: when the dispatch-table cell of the normalized pair is empty,
the driver warns naming both node types, invokes no routine, leaves the
result object unmodified, and returns the maximal representable value as the
sentinel distance - in both argument orders. -/
theorem C4_unsupported_pair {S R : Type} (looktable : DistanceFunctionMatrix R)
    (nsolver? : Option S) (o1 : CollisionGeometry) (tf1 : Transform3)
    (o2 : CollisionGeometry) (tf2 : Transform3) (result0 : R)
    (h12 : looktable o1.nodeType o2.nodeType = none)
    (h21 : looktable o2.nodeType o1.nodeType = none) :
    ((distanceGeomSolver looktable nsolver? o1 tf1 o2 tf2 result0).res = FCL_MAX ∧
     (distanceGeomSolver looktable nsolver? o1 tf1 o2 tf2 result0).result = result0 ∧
     Event.warnUnsupported o1.nodeType o2.nodeType ∈
       (distanceGeomSolver looktable nsolver? o1 tf1 o2 tf2 result0).events ∧
     ∀ r c, Event.invoke r c ∉
       (distanceGeomSolver looktable nsolver? o1 tf1 o2 tf2 result0).events) ∧
    ((distanceGeomSolver looktable nsolver? o2 tf2 o1 tf1 result0).res = FCL_MAX ∧
     (distanceGeomSolver looktable nsolver? o2 tf2 o1 tf1 result0).result = result0 ∧
     Event.warnUnsupported o2.nodeType o1.nodeType ∈
       (distanceGeomSolver looktable nsolver? o2 tf2 o1 tf1 result0).events ∧
     ∀ r c, Event.invoke r c ∉
       (distanceGeomSolver looktable nsolver? o2 tf2 o1 tf1 result0).events) :=
  ⟨distanceGeomSolver_none looktable nsolver? o1 tf1 o2 tf2 result0 h12 h21,
   distanceGeomSolver_none looktable nsolver? o2 tf2 o1 tf1 result0 h21 h12⟩

/-- Claim C4 witness: an everywhere-empty table, a primitive node (tag 5) and
a hierarchy node (tag 7). -/
theorem C4_witness :
    ((fun _ _ => none : DistanceFunctionMatrix ℕ) 5 7 = none ∧
     (fun _ _ => none : DistanceFunctionMatrix ℕ) 7 5 = none) ∧
    (((distanceGeomSolver (fun _ _ => none) (none : Option Unit)
          ⟨OBJECT_TYPE.OT_GEOM, 5⟩ idTransform ⟨OBJECT_TYPE.OT_BVH, 7⟩ idTransform 0).res = FCL_MAX ∧
      (distanceGeomSolver (fun _ _ => none) (none : Option Unit)
          ⟨OBJECT_TYPE.OT_GEOM, 5⟩ idTransform ⟨OBJECT_TYPE.OT_BVH, 7⟩ idTransform 0).result = 0 ∧
      Event.warnUnsupported 5 7 ∈
        (distanceGeomSolver (fun _ _ => none) (none : Option Unit)
          ⟨OBJECT_TYPE.OT_GEOM, 5⟩ idTransform ⟨OBJECT_TYPE.OT_BVH, 7⟩ idTransform 0).events ∧
      ∀ r c, Event.invoke r c ∉
        (distanceGeomSolver (fun _ _ => none) (none : Option Unit)
          ⟨OBJECT_TYPE.OT_GEOM, 5⟩ idTransform ⟨OBJECT_TYPE.OT_BVH, 7⟩ idTransform 0).events) ∧
     ((distanceGeomSolver (fun _ _ => none) (none : Option Unit)
          ⟨OBJECT_TYPE.OT_BVH, 7⟩ idTransform ⟨OBJECT_TYPE.OT_GEOM, 5⟩ idTransform 0).res = FCL_MAX ∧
      (distanceGeomSolver (fun _ _ => none) (none : Option Unit)
          ⟨OBJECT_TYPE.OT_BVH, 7⟩ idTransform ⟨OBJECT_TYPE.OT_GEOM, 5⟩ idTransform 0).result = 0 ∧
      Event.warnUnsupported 7 5 ∈
        (distanceGeomSolver (fun _ _ => none) (none : Option Unit)
          ⟨OBJECT_TYPE.OT_BVH, 7⟩ idTransform ⟨OBJECT_TYPE.OT_GEOM, 5⟩ idTransform 0).events ∧
      ∀ r c, Event.invoke r c ∉
        (distanceGeomSolver (fun _ _ => none) (none : Option Unit)
          ⟨OBJECT_TYPE.OT_BVH, 7⟩ idTransform ⟨OBJECT_TYPE.OT_GEOM, 5⟩ idTransform 0).events)) :=
  ⟨⟨rfl, rfl⟩,
   C4_unsupported_pair (fun _ _ => none) (none : Option Unit)
     ⟨OBJECT_TYPE.OT_GEOM, 5⟩ idTransform ⟨OBJECT_TYPE.OT_BVH, 7⟩ idTransform 0 rfl rfl⟩

/-- Claim C5: for a primitive geometry `p` and a hierarchy geometry `h` with
an occupied cell `looktable[h][p]`, the two argument orders give identical
outcomes: the same cell is consulted, the stored routine is invoked with the
hierarchy operand first, and the same distance and result state are
reported. -/
theorem C5_mixed_order_invariance {S R : Type} (looktable : DistanceFunctionMatrix R)
    (nsolver? : Option S) (p : CollisionGeometry) (tfp : Transform3)
    (h : CollisionGeometry) (tfh : Transform3) (result0 : R) (f : DistFunc R)
    (hp : p.objectType = OBJECT_TYPE.OT_GEOM) (hh : h.objectType = OBJECT_TYPE.OT_BVH)
    (hf : looktable h.nodeType p.nodeType = some f) :
    distanceGeomSolver looktable nsolver? p tfp h tfh result0 =
      distanceGeomSolver looktable nsolver? h tfh p tfp result0 ∧
    (distanceGeomSolver looktable nsolver? p tfp h tfh result0).res =
      (f h tfh p tfp result0).1 ∧
    (distanceGeomSolver looktable nsolver? p tfp h tfh result0).result =
      (f h tfh p tfp result0).2 ∧
    Event.invoke h.nodeType p.nodeType ∈
      (distanceGeomSolver looktable nsolver? p tfp h tfh result0).events := by
  rw [distanceGeomSolver_geom_bvh looktable nsolver? p tfp h tfh result0 f hp hh hf,
    distanceGeomSolver_bvh_geom looktable nsolver? h tfh p tfp result0 f hh hf]
  refine ⟨rfl, rfl, rfl, ?_⟩
  exact List.mem_append_left _ (List.mem_append_right _ (List.mem_singleton_self _))

/-- Claim C5 witness: a one-cell table at `(7,5)` with a constant routine. -/
theorem C5_witness :
    ((⟨OBJECT_TYPE.OT_GEOM, 5⟩ : CollisionGeometry).objectType = OBJECT_TYPE.OT_GEOM ∧
     (⟨OBJECT_TYPE.OT_BVH, 7⟩ : CollisionGeometry).objectType = OBJECT_TYPE.OT_BVH ∧
     (fun i j => if i = 7 ∧ j = 5 then some (fun _ _ _ _ r => (0, r)) else none :
        DistanceFunctionMatrix ℕ) 7 5 = some (fun _ _ _ _ r => (0, r))) ∧
    (distanceGeomSolver
        (fun i j => if i = 7 ∧ j = 5 then some (fun _ _ _ _ r => (0, r)) else none)
        (some ()) ⟨OBJECT_TYPE.OT_GEOM, 5⟩ idTransform ⟨OBJECT_TYPE.OT_BVH, 7⟩ idTransform 4 =
      distanceGeomSolver
        (fun i j => if i = 7 ∧ j = 5 then some (fun _ _ _ _ r => (0, r)) else none)
        (some ()) ⟨OBJECT_TYPE.OT_BVH, 7⟩ idTransform ⟨OBJECT_TYPE.OT_GEOM, 5⟩ idTransform 4 ∧
     (distanceGeomSolver
        (fun i j => if i = 7 ∧ j = 5 then some (fun _ _ _ _ r => (0, r)) else none)
        (some ()) ⟨OBJECT_TYPE.OT_GEOM, 5⟩ idTransform ⟨OBJECT_TYPE.OT_BVH, 7⟩ idTransform 4).res =
       (0 : ℝ) ∧
     (distanceGeomSolver
        (fun i j => if i = 7 ∧ j = 5 then some (fun _ _ _ _ r => (0, r)) else none)
        (some ()) ⟨OBJECT_TYPE.OT_GEOM, 5⟩ idTransform ⟨OBJECT_TYPE.OT_BVH, 7⟩ idTransform 4).result =
       (4 : ℕ) ∧
     Event.invoke 7 5 ∈
       (distanceGeomSolver
          (fun i j => if i = 7 ∧ j = 5 then some (fun _ _ _ _ r => (0, r)) else none)
          (some ()) ⟨OBJECT_TYPE.OT_GEOM, 5⟩ idTransform ⟨OBJECT_TYPE.OT_BVH, 7⟩ idTransform 4).events) :=
  ⟨⟨rfl, rfl, by norm_num⟩,
   C5_mixed_order_invariance _ (some ()) ⟨OBJECT_TYPE.OT_GEOM, 5⟩ idTransform
     ⟨OBJECT_TYPE.OT_BVH, 7⟩ idTransform 4 (fun _ _ _ _ r => (0, r)) rfl rfl (by norm_num)⟩

/-- Claim C9: a caller-supplied solver is never constructed or deleted by
the driver; with no solver supplied, one is constructed as the first action
and deleted as the last action of every call, whatever the table contents
(including the unsupported-pair path). -/
theorem C9_solver_lifecycle {S R : Type} (looktable : DistanceFunctionMatrix R)
    (nsolver? : Option S) (o1 : CollisionGeometry) (tf1 : Transform3)
    (o2 : CollisionGeometry) (tf2 : Transform3) (result0 : R) :
    (∀ s, nsolver? = some s →
      Event.newSolver ∉
        (distanceGeomSolver looktable nsolver? o1 tf1 o2 tf2 result0).events ∧
      Event.deleteSolver ∉
        (distanceGeomSolver looktable nsolver? o1 tf1 o2 tf2 result0).events) ∧
    (nsolver? = none →
      (distanceGeomSolver looktable nsolver? o1 tf1 o2 tf2 result0).events.head? =
        some Event.newSolver ∧
      (distanceGeomSolver looktable nsolver? o1 tf1 o2 tf2 result0).events.getLast? =
        some Event.deleteSolver) := by
  constructor
  · rintro s rfl
    by_cases hc : o1.objectType = OBJECT_TYPE.OT_GEOM ∧ o2.objectType = OBJECT_TYPE.OT_BVH
    · cases hl : looktable o2.nodeType o1.nodeType with
      | none => exact ⟨by simp [distanceGeomSolver, hc.1, hc.2, hl],
          by simp [distanceGeomSolver, hc.1, hc.2, hl]⟩
      | some f => exact ⟨by simp [distanceGeomSolver, hc.1, hc.2, hl],
          by simp [distanceGeomSolver, hc.1, hc.2, hl]⟩
    · cases hl : looktable o1.nodeType o2.nodeType with
      | none => exact ⟨by simp [distanceGeomSolver, hc, hl],
          by simp [distanceGeomSolver, hc, hl]⟩
      | some f => exact ⟨by simp [distanceGeomSolver, hc, hl],
          by simp [distanceGeomSolver, hc, hl]⟩
  · rintro rfl
    by_cases hc : o1.objectType = OBJECT_TYPE.OT_GEOM ∧ o2.objectType = OBJECT_TYPE.OT_BVH
    · cases hl : looktable o2.nodeType o1.nodeType with
      | none => exact ⟨by simp [distanceGeomSolver, hc.1, hc.2, hl],
          by simp [distanceGeomSolver, hc.1, hc.2, hl, List.getLast?]⟩
      | some f => exact ⟨by simp [distanceGeomSolver, hc.1, hc.2, hl],
          by simp [distanceGeomSolver, hc.1, hc.2, hl, List.getLast?]⟩
    · cases hl : looktable o1.nodeType o2.nodeType with
      | none => exact ⟨by simp [distanceGeomSolver, hc, hl],
          by simp [distanceGeomSolver, hc, hl, List.getLast?]⟩
      | some f => exact ⟨by simp [distanceGeomSolver, hc, hl],
          by simp [distanceGeomSolver, hc, hl, List.getLast?]⟩

/-- Claim C9 witness: both lifecycle modes on an empty table (the
unsupported-pair exit path). -/
theorem C9_witness :
    (Event.newSolver ∉
       (distanceGeomSolver (fun _ _ => none) (some ()) ⟨OBJECT_TYPE.OT_GEOM, 5⟩
         idTransform ⟨OBJECT_TYPE.OT_BVH, 7⟩ idTransform (0 : ℕ)).events ∧
     Event.deleteSolver ∉
       (distanceGeomSolver (fun _ _ => none) (some ()) ⟨OBJECT_TYPE.OT_GEOM, 5⟩
         idTransform ⟨OBJECT_TYPE.OT_BVH, 7⟩ idTransform (0 : ℕ)).events) ∧
    ((distanceGeomSolver (fun _ _ => none) (none : Option Unit) ⟨OBJECT_TYPE.OT_GEOM, 5⟩
         idTransform ⟨OBJECT_TYPE.OT_BVH, 7⟩ idTransform (0 : ℕ)).events.head? =
       some Event.newSolver ∧
     (distanceGeomSolver (fun _ _ => none) (none : Option Unit) ⟨OBJECT_TYPE.OT_GEOM, 5⟩
         idTransform ⟨OBJECT_TYPE.OT_BVH, 7⟩ idTransform (0 : ℕ)).events.getLast? =
       some Event.deleteSolver) :=
  ⟨(C9_solver_lifecycle (fun _ _ => none) (some ()) ⟨OBJECT_TYPE.OT_GEOM, 5⟩
      idTransform ⟨OBJECT_TYPE.OT_BVH, 7⟩ idTransform 0).1 () rfl,
   (C9_solver_lifecycle (fun _ _ => none) (none : Option Unit) ⟨OBJECT_TYPE.OT_GEOM, 5⟩
      idTransform ⟨OBJECT_TYPE.OT_BVH, 7⟩ idTransform 0).2 rfl⟩

/-- Claim C10: both Scalar-templated top-level distance entry points return
`-1` on a solver-strategy value outside the two declared enumerators, with
no table lookup, no routine invocation, no diagnostic, and the result object
untouched; `-1` is distinct from the unsupported-pair sentinel. -/
theorem C10_invalid_solver_type {R : Type} (tableCCD tableIndep : DistanceFunctionMatrix R)
    (o1 : CollisionGeometry) (tf1 : Transform3) (o2 : CollisionGeometry)
    (tf2 : Transform3) (co1 co2 : CollisionObject) (request : DistanceRequest)
    (result0 : R)
    (h1 : request.gjk_solver_type ≠ GJKSolverType.GST_LIBCCD)
    (h2 : request.gjk_solver_type ≠ GJKSolverType.GST_INDEP) :
    distanceGeomTop tableCCD tableIndep o1 tf1 o2 tf2 request result0 =
      ⟨-1, result0, []⟩ ∧
    distanceObjTop tableCCD tableIndep co1 co2 request result0 = ⟨-1, result0, []⟩ ∧
    (-1 : ℝ) ≠ FCL_MAX := by
  have h3 : request.gjk_solver_type = GJKSolverType.GST_OUT_OF_RANGE := by
    cases hr : request.gjk_solver_type
    · exact absurd hr h1
    · exact absurd hr h2
    · rfl
  refine ⟨?_, ?_, ?_⟩
  · simp [distanceGeomTop, h3]
  · simp [distanceObjTop, h3]
  · intro he
    have hpos := FCL_MAX_pos
    rw [← he] at hpos
    norm_num at hpos

/-- Claim C10 witness: an out-of-range strategy value on concrete inputs. -/
theorem C10_witness :
    ((⟨GJKSolverType.GST_OUT_OF_RANGE⟩ : DistanceRequest).gjk_solver_type ≠
        GJKSolverType.GST_LIBCCD ∧
     (⟨GJKSolverType.GST_OUT_OF_RANGE⟩ : DistanceRequest).gjk_solver_type ≠
        GJKSolverType.GST_INDEP) ∧
    (distanceGeomTop (fun _ _ => none) (fun _ _ => none) ⟨OBJECT_TYPE.OT_GEOM, 5⟩
        idTransform ⟨OBJECT_TYPE.OT_BVH, 7⟩ idTransform
        ⟨GJKSolverType.GST_OUT_OF_RANGE⟩ (0 : ℕ) = ⟨-1, 0, []⟩ ∧
     distanceObjTop (fun _ _ => none) (fun _ _ => none)
        ⟨⟨OBJECT_TYPE.OT_GEOM, 5⟩, idTransform⟩ ⟨⟨OBJECT_TYPE.OT_BVH, 7⟩, idTransform⟩
        ⟨GJKSolverType.GST_OUT_OF_RANGE⟩ (0 : ℕ) = ⟨-1, 0, []⟩ ∧
     (-1 : ℝ) ≠ FCL_MAX) :=
  ⟨⟨by decide, by decide⟩,
   C10_invalid_solver_type (fun _ _ => none) (fun _ _ => none) ⟨OBJECT_TYPE.OT_GEOM, 5⟩
     idTransform ⟨OBJECT_TYPE.OT_BVH, 7⟩ idTransform
     ⟨⟨OBJECT_TYPE.OT_GEOM, 5⟩, idTransform⟩ ⟨⟨OBJECT_TYPE.OT_BVH, 7⟩, idTransform⟩
     ⟨GJKSolverType.GST_OUT_OF_RANGE⟩ 0 (by decide) (by decide)⟩

end ClaimTheorems

end fcl
